import Mathlib

/-!
Verification of the schedule-grid core of the pilates calendar app.

The embedded code comes from `src/App.tsx`:
  * `getInstructor` (lines 22-61): the rule engine mapping (day, hour) to an
    instructor name or none, an ordered chain of eight precedence rules;
  * `scheduleGrid` (lines 64-112): the grid builder producing a
    `hours.length × daysInMonth` array of cells with rowspan merging of
    consecutive equal non-null instructor assignments, and whole-day
    merging on holidays.

Calendar constants come from lines 6-17 of the same file: November 2025
(30 days), hours 8..20, holidays {5, 6, 10, 25}.

In the source, the body of the day loop (lines 76-110) addresses the grid
exclusively at the fixed column `d_idx = day - 1`; columns are therefore
independent, and the builder is embedded as a per-day column computation
(`dayColumn`) from which `buildGrid` assembles the `[h_idx][d_idx]` rows.
Cell-field assignments of the source become functional updates.
-/

namespace Abc10

/-- The rule engine of `src/App.tsx` (`getInstructor`, lines 22-61): an
ordered if/else chain over the integer pair (day, hour). Days and hours are
JavaScript numbers used only at integer values, embedded as `Int`. -/
def getInstructor (day hour : Int) : Option String :=
  -- New rule for Sosa
  if (day = 9 ∨ day = 16 ∨ day = 29) ∧ (8 ≤ hour ∧ hour ≤ 9) then
    some "Sosa"
  -- Rule for day 13
  else if day = 13 then
    if 10 ≤ hour ∧ hour ≤ 20 then some "Gota" else none
  -- Special rule for day 20
  else if day = 20 then
    if 11 ≤ hour ∧ hour ≤ 13 then some "Emi" else none
  -- Rule 1: Gota's exception days
  else if (day = 17 ∨ day = 28) ∧ (10 ≤ hour ∧ hour ≤ 16) then
    some "Gota"
  -- Rule 2: Emi's exception days and times
  else if (day = 3 ∨ day = 24) ∧ (11 ≤ hour ∧ hour ≤ 13) then
    some "Emi"
  -- Rule 3: Gota's default evening schedule
  else if 17 ≤ hour ∧ hour ≤ 20 then
    some "Gota"
  -- Rule 4: Kayo's default daytime schedule
  else if 10 ≤ hour ∧ hour ≤ 16 then
    some "Kayo"
  else
    none

/-- The calendar configuration of `src/App.tsx` (`calendarInfo`, lines 6-17).
`daysInMonth` is the day count of November 2025 (the source computes
`new Date(2025, 11, 0).getDate()`, which is 30). -/
structure Calendar where
  daysInMonth : Nat
  hours : List Int
  holidays : List Nat
deriving Repr, DecidableEq

def calendarInfo : Calendar :=
  { daysInMonth := 30
    hours := [8, 9, 10, 11, 12, 13, 14, 15, 16, 17, 18, 19, 20]
    holidays := [5, 6, 10, 25] }

/-- The cell record of `src/types.ts` (`GridCell`). -/
structure GridCell where
  instructor : Option String
  rowspan : Nat
  hidden : Bool
deriving Repr, DecidableEq

/-- The grid is addressed `grid[h_idx][d_idx]` exactly as in the source. -/
abbrev Grid := List (List GridCell)

/-- The initial cell value `{ instructor: null, rowspan: 1, hidden: false }`
(line 71 of `src/App.tsx`). -/
def defaultCell : GridCell := { instructor := none, rowspan := 1, hidden := false }

/-- One day's column of cells, indexed by hour index. -/
abbrev Column := List GridCell

/-- Read `grid[h_idx][d_idx]` within one day's column. -/
def colGet (col : Column) (h_idx : Nat) : GridCell :=
  col.getD h_idx defaultCell

/-- In-place field mutation `grid[h_idx][d_idx].f = v` of the source becomes
a functional update of the addressed cell of the day's column. -/
def colModify (col : Column) (h_idx : Nat) (f : GridCell → GridCell) : Column :=
  col.set h_idx (f (colGet col h_idx))

/-- Grid initialization (lines 68-73) restricted to one column: every cell
starts as `defaultCell`. -/
def initColumn (cal : Calendar) : Column :=
  List.replicate cal.hours.length defaultCell

/-- The forward merge scan (lines 99-107): walk the hour indices after the
owning cell while the rule engine keeps returning the same instructor,
hiding each merged cell; returns the updated column and the number of cells
merged (the owner's rowspan is one more than this count). -/
def mergeScan (cal : Calendar) (day : Nat) (instr : String) :
    List Nat → Column → Column × Nat
  | [], col => (col, 0)
  | next_h_idx :: rest, col =>
    if getInstructor (day : Int) (cal.hours.getD next_h_idx 0) = some instr then
      let col' := colModify col next_h_idx (fun c => { c with hidden := true })
      let r := mergeScan cal day instr rest col'
      (r.1, r.2 + 1)
    else
      (col, 0)

/-- One iteration of the non-holiday hour loop (lines 89-109): skip hidden
cells, store the rule engine's result, and on a non-null result run the
merge scan and set the owner's rowspan. -/
def processHour (cal : Calendar) (day : Nat) (col : Column) (h_idx : Nat) : Column :=
  if (colGet col h_idx).hidden then col
  else
    let hour := cal.hours.getD h_idx 0
    let instructor := getInstructor (day : Int) hour
    let col1 := colModify col h_idx (fun c => { c with instructor := instructor })
    match instructor with
    | none => col1
    | some instr =>
      let r := mergeScan cal day instr
        (List.range' (h_idx + 1) (cal.hours.length - (h_idx + 1))) col1
      colModify r.1 h_idx (fun c => { c with rowspan := 1 + r.2 })

/-- The body of the day loop (lines 76-110) for one day: a holiday gets the
single full-height "休み" cell at hour index 0 with all later hour rows
hidden (lines 80-86); a normal day runs the hour loop over all hour
indices in ascending order. -/
def dayColumn (cal : Calendar) (day : Nat) : Column :=
  if cal.holidays.contains day then
    (List.range' 1 (cal.hours.length - 1)).foldl
      (fun col h_idx => colModify col h_idx (fun c => { c with hidden := true }))
      ((initColumn cal).set 0
        { instructor := some "休み", rowspan := cal.hours.length, hidden := false })
  else
    (List.range cal.hours.length).foldl (processHour cal day) (initColumn cal)

/-- The grid builder (`scheduleGrid` memo body, lines 64-112) as a function
of the calendar configuration it reads: row `h_idx` lists cell
`[h_idx][d_idx]` of each day's column, days running 1..daysInMonth. -/
def buildGrid (cal : Calendar) : Grid :=
  (List.range cal.hours.length).map (fun h_idx =>
    (List.range' 1 cal.daysInMonth).map (fun day => colGet (dayColumn cal day) h_idx))

/-- The computed schedule grid of the app: the builder applied to the app's
calendar constants. -/
def scheduleGrid : Grid := buildGrid calendarInfo

/-- Read `grid[h_idx][d_idx]` of the assembled grid. -/
def getCell (g : Grid) (h_idx d_idx : Nat) : GridCell :=
  (g.getD h_idx []).getD d_idx defaultCell

/-- The hour value displayed at a given hour index. -/
def hourAt (h_idx : Nat) : Int := calendarInfo.hours.getD h_idx 0

/-- Number of hour rows. -/
def numHours : Nat := calendarInfo.hours.length

/-- Modelled from the spec (§4.1): `assignInstructor` as an ordered list of
(guard, decided result) rules evaluated in order with first match winning,
followed by the rule-8 fallback `none`. Each list entry returns `none` when
its guard does not match and `some r` when it decides the final result `r`.
This is the spec-side definition compared against `getInstructor` in C1. -/
def specRuleList : List (Int → Int → Option (Option String)) :=
  [ fun day hour =>
      if (day = 9 ∨ day = 16 ∨ day = 29) ∧ (8 ≤ hour ∧ hour ≤ 9) then
        some (some "Sosa") else none
  , fun day hour =>
      if day = 13 then
        some (if 10 ≤ hour ∧ hour ≤ 20 then some "Gota" else none) else none
  , fun day hour =>
      if day = 20 then
        some (if 11 ≤ hour ∧ hour ≤ 13 then some "Emi" else none) else none
  , fun day hour =>
      if (day = 17 ∨ day = 28) ∧ (10 ≤ hour ∧ hour ≤ 16) then
        some (some "Gota") else none
  , fun day hour =>
      if (day = 3 ∨ day = 24) ∧ (11 ≤ hour ∧ hour ≤ 13) then
        some (some "Emi") else none
  , fun _day hour =>
      if 17 ≤ hour ∧ hour ≤ 20 then some (some "Gota") else none
  , fun _day hour =>
      if 10 ≤ hour ∧ hour ≤ 16 then some (some "Kayo") else none ]

/-- Modelled from the spec (§4.1, §9): first-match-wins evaluation of the
rule list, defaulting to `none` (rule 8). -/
def assignInstructorSpec (day hour : Int) : Option String :=
  match specRuleList.findSome? (fun r => r day hour) with
  | some res => res
  | none => none

/-- C1: for every day in 1..daysInMonth and every configured hour, the
source rule engine agrees with the spec's eight ordered precedence rules
evaluated first-match-wins, and the nine §8 example evaluations hold. -/
theorem C1_rule_engine_matches_spec :
    (∀ day ∈ List.range' 1 calendarInfo.daysInMonth,
      ∀ hour ∈ calendarInfo.hours,
        getInstructor (day : Int) hour = assignInstructorSpec (day : Int) hour) ∧
    getInstructor 9 8 = some "Sosa" ∧
    getInstructor 13 15 = some "Gota" ∧
    getInstructor 13 9 = none ∧
    getInstructor 20 12 = some "Emi" ∧
    getInstructor 20 9 = none ∧
    getInstructor 17 12 = some "Gota" ∧
    getInstructor 1 18 = some "Gota" ∧
    getInstructor 1 11 = some "Kayo" ∧
    getInstructor 1 9 = none := by
  decide

/-- Witness for C1 at day 9, hour 8. -/
theorem C1_rule_engine_matches_spec_witness :
    getInstructor ((9 : Nat) : Int) 8 = assignInstructorSpec ((9 : Nat) : Int) 8 :=
  C1_rule_engine_matches_spec.1 9 (by decide) 8 (by decide)

/-- A run of consecutive hour indices starting at `start` of length `len` on
which the rule engine returns one and the same non-none instructor. -/
def sameNonNoneRun (day start len : Nat) : Prop :=
  0 < len ∧ start + len ≤ numHours ∧
  getInstructor (day : Int) (hourAt start) ≠ none ∧
  ∀ i < len, getInstructor (day : Int) (hourAt (start + i)) =
    getInstructor (day : Int) (hourAt start)

/-- A maximal such run: the rule engine's result changes (or the hour list
ends) at both boundaries. -/
def maximalRun (day start len : Nat) : Prop :=
  sameNonNoneRun day start len ∧
  (start = 0 ∨ getInstructor (day : Int) (hourAt (start - 1)) ≠
    getInstructor (day : Int) (hourAt start)) ∧
  (start + len = numHours ∨ getInstructor (day : Int) (hourAt (start + len)) ≠
    getInstructor (day : Int) (hourAt start))

instance sameNonNoneRun.decidable (day start len : Nat) :
    Decidable (sameNonNoneRun day start len) := by
  unfold sameNonNoneRun; infer_instance

instance maximalRun.decidable (day start len : Nat) :
    Decidable (maximalRun day start len) := by
  unfold maximalRun; infer_instance

/-- The grid owns a run at (day, start, len): the run's first cell is the
single non-hidden cell of the run, its rowspan is the run length, and every
other cell of the run is hidden. -/
def runOwned (day start len : Nat) : Prop :=
  (getCell scheduleGrid start (day - 1)).hidden = false ∧
  (getCell scheduleGrid start (day - 1)).rowspan = len ∧
  ∀ i < len, 0 < i → (getCell scheduleGrid (start + i) (day - 1)).hidden = true

instance runOwned.decidable (day start len : Nat) : Decidable (runOwned day start len) := by
  unfold runOwned; infer_instance

/-- C2: on every non-holiday day, each maximal run of consecutive hour
indices with one and the same non-none rule-engine result produces exactly
one non-hidden cell (the run's first cell) whose rowspan is the run length,
and every other cell of the run is hidden. -/
theorem C2_merge_correctness :
    ∀ day ∈ List.range' 1 calendarInfo.daysInMonth, day ∉ calendarInfo.holidays →
      ∀ start < numHours, ∀ len ≤ numHours, maximalRun day start len →
        runOwned day start len := by
  decide

/-- Witness for C2: on day 1 the daytime hours 10..16 (hour indices 2..8)
form a maximal Kayo run of length 7 owned by the cell at hour index 2. -/
theorem C2_merge_correctness_witness : runOwned 1 2 7 :=
  C2_merge_correctness 1 (by decide) (by decide) 2 (by decide) 7 (by decide) (by decide)

/-- C3: every holiday column has the full-height "休み" cell at hour index 0
and every later cell of the column hidden; the rule engine is never
consulted for such a column (its later cells still hold the untouched
initial instructor value none). -/
theorem C3_holiday_column :
    ∀ day ∈ calendarInfo.holidays,
      getCell scheduleGrid 0 (day - 1) =
        { instructor := some "休み", rowspan := numHours, hidden := false } ∧
      ∀ h < numHours, 0 < h →
        (getCell scheduleGrid h (day - 1)).hidden = true ∧
        (getCell scheduleGrid h (day - 1)).instructor = none := by
  decide

/-- Witness for C3 at the holiday day 5. -/
theorem C3_holiday_column_witness :
    getCell scheduleGrid 0 (5 - 1) =
      { instructor := some "休み", rowspan := numHours, hidden := false } ∧
    ∀ h < numHours, 0 < h →
      (getCell scheduleGrid h (5 - 1)).hidden = true ∧
      (getCell scheduleGrid h (5 - 1)).instructor = none :=
  C3_holiday_column 5 (by decide)

/-- C4: the whole-day restrictions. For every configured hour, day 13 gives
Gota exactly on hours 10..20 and none otherwise, and day 20 gives Emi
exactly on hours 11..13 and none otherwise; in particular every evening
hour 17..20 of day 20 gives none, where the default evening rule would
otherwise give Gota. -/
theorem C4_whole_day_restrictions :
    (∀ hour ∈ calendarInfo.hours,
      getInstructor 13 hour = (if 10 ≤ hour ∧ hour ≤ 20 then some "Gota" else none) ∧
      getInstructor 20 hour = (if 11 ≤ hour ∧ hour ≤ 13 then some "Emi" else none)) ∧
    (∀ hour ∈ calendarInfo.hours, 17 ≤ hour →
      getInstructor 20 hour = none ∧ getInstructor 1 hour = some "Gota") := by
  decide

/-- Witness for C4 at hour 18. -/
theorem C4_whole_day_restrictions_witness :
    getInstructor 20 18 = none ∧ getInstructor 1 18 = some "Gota" :=
  C4_whole_day_restrictions.2 18 (by decide) (by decide)

/-- C5: on a non-holiday day, an hour at which the rule engine returns none
keeps the untouched cell shape: instructor none, rowspan 1, not hidden —
it is never merged into a neighbouring run. -/
theorem C5_none_never_merged :
    ∀ day ∈ List.range' 1 calendarInfo.daysInMonth, day ∉ calendarInfo.holidays →
      ∀ h < numHours, getInstructor (day : Int) (hourAt h) = none →
        (getCell scheduleGrid h (day - 1)).hidden = false ∧
        (getCell scheduleGrid h (day - 1)).rowspan = 1 ∧
        (getCell scheduleGrid h (day - 1)).instructor = none := by
  decide

/-- Witness for C5: day 20 at hour index 9 (hour 17) has a none result with
equal Emi assignments on both sides of the surrounding gap. -/
theorem C5_none_never_merged_witness :
    (getCell scheduleGrid 9 (20 - 1)).hidden = false ∧
    (getCell scheduleGrid 9 (20 - 1)).rowspan = 1 ∧
    (getCell scheduleGrid 9 (20 - 1)).instructor = none :=
  C5_none_never_merged 20 (by decide) (by decide) 9 (by decide) (by decide)

/-- Sum of the rowspan fields over the non-hidden cells of one day column. -/
def colRowspanSum (d_idx : Nat) : Nat :=
  ((List.range numHours).filter
    (fun h => !(getCell scheduleGrid h d_idx).hidden)).foldl
    (fun acc h => acc + (getCell scheduleGrid h d_idx).rowspan) 0

/-- Number of hidden cells of one day column. -/
def colHiddenCount (d_idx : Nat) : Nat :=
  ((List.range numHours).filter (fun h => (getCell scheduleGrid h d_idx).hidden)).length

/-- Number of non-hidden cells of one day column. -/
def colNonHiddenCount (d_idx : Nat) : Nat :=
  ((List.range numHours).filter (fun h => !(getCell scheduleGrid h d_idx).hidden)).length

/-- Number of hidden cells covered by the rowspans of the non-hidden cells
of one day column: a non-hidden cell of rowspan r covers r - 1 cells. -/
def colCoveredCount (d_idx : Nat) : Nat :=
  ((List.range numHours).filter
    (fun h => !(getCell scheduleGrid h d_idx).hidden)).foldl
    (fun acc h => acc + ((getCell scheduleGrid h d_idx).rowspan - 1)) 0

/-- C6: in every day column (holiday or not) the rowspans of the non-hidden
cells sum to the number of hour rows. -/
theorem C6_rowspan_sum :
    ∀ d_idx < calendarInfo.daysInMonth, colRowspanSum d_idx = numHours := by
  decide

/-- Witness for C6 at the first day column. -/
theorem C6_rowspan_sum_witness : colRowspanSum 0 = numHours :=
  C6_rowspan_sum 0 (by decide)

/-- C7 counterexample: in the column of holiday day 5 (index 4) the sum of
the rowspans of the non-hidden cells is already 13, and the 12 hidden cells
covered by them push the §3 sum to 25 ≠ hours.length, refuting the claim as
stated. -/
theorem C7_counterexample :
    ¬ (colRowspanSum 4 + colHiddenCount 4 = numHours) := by
  decide

/-- C7 amended: in every day column the count of non-hidden cells plus the
count of hidden cells covered by their rowspans (rowspan − 1 cells each)
equals hours.length, and that covered count is exactly the column's hidden
cell count. -/
theorem C7_column_accounting :
    ∀ d_idx < calendarInfo.daysInMonth,
      colNonHiddenCount d_idx + colCoveredCount d_idx = numHours ∧
      colCoveredCount d_idx = colHiddenCount d_idx := by
  decide

/-- Witness for the amended C7 at the holiday column of day 5. -/
theorem C7_column_accounting_witness :
    colNonHiddenCount 4 + colCoveredCount 4 = numHours ∧
    colCoveredCount 4 = colHiddenCount 4 :=
  C7_column_accounting 4 (by decide)

/-- C8 counterexample: at the out-of-range inputs day 31 hour 21 the rule
engine silently returns none, and at day 0 hour 12 it silently returns
Kayo — it does not fail loudly anywhere. -/
theorem C8_counterexample :
    getInstructor 31 21 = none ∧ getInstructor 0 12 = some "Kayo" := by
  decide

/-- C8 amended: out-of-range day/hour is not rejected: the rule engine
evaluates the same rule chain and silently returns a result — the default
rules for in-window hours, none otherwise. -/
theorem C8_no_loud_failure :
    getInstructor 0 12 = some "Kayo" ∧
    getInstructor (-1) 18 = some "Gota" ∧
    getInstructor 0 7 = none ∧
    getInstructor 42 21 = none := by
  decide

/-- C9: grid construction and the rule engine are deterministic and
idempotent: structurally identical calendar configurations yield
structurally identical grids, and the rule engine returns the same result
on every call with the same arguments. In the embedding both are pure
functions, so this is definitional. -/
theorem C9_deterministic :
    (∀ cal cal' : Calendar, cal = cal' → buildGrid cal = buildGrid cal') ∧
    (∀ day hour : Int, getInstructor day hour = getInstructor day hour) :=
  ⟨fun _ _ h => congrArg buildGrid h, fun _ _ => rfl⟩

/-- Witness for C9 at the app's calendar configuration. -/
theorem C9_deterministic_witness : buildGrid calendarInfo = buildGrid calendarInfo :=
  C9_deterministic.1 calendarInfo calendarInfo rfl

/-- C10: the rule engine is total over all integers and performs no domain
validation: for any integer day in none of the hard-coded special-day sets
— even day 0, −1 or 42 — it returns Kayo on hours 10..16 and Gota on hours
17..20, and plain none (not an error) on any hour outside all rule
windows. -/
theorem C10_total_no_validation :
    ∀ day : Int, day ∉ ([9, 16, 29, 13, 20, 17, 28, 3, 24] : List Int) →
      ∀ hour : Int,
        (10 ≤ hour ∧ hour ≤ 16 → getInstructor day hour = some "Kayo") ∧
        (17 ≤ hour ∧ hour ≤ 20 → getInstructor day hour = some "Gota") ∧
        (hour < 10 ∨ 20 < hour → getInstructor day hour = none) := by
  intro day hday hour
  simp only [List.mem_cons, List.not_mem_nil, or_false, not_or] at hday
  unfold getInstructor
  refine ⟨fun hh => ?_, fun hh => ?_, fun hh => ?_⟩ <;>
    split_ifs <;> first | rfl | omega

/-- Witness for C10 at day 0, hour 12. -/
theorem C10_total_no_validation_witness : getInstructor 0 12 = some "Kayo" :=
  (C10_total_no_validation 0 (by decide) 12).1 (by decide)

end Abc10
